import Mathlib

/-
Verification development for the Digital Arkshift emergency-response core.

The Python source is embedded shallowly:

* Database rows (`Resource`, `EmergencyRequest`, `USSDSession`) become Lean
  structures; the columns that the verified operations read or write are kept
  with their source names.  Python ints are `Int`/`Nat`, floats that only ever
  hold prices are `Rat`, geographic coordinates and scores are `Real`
  (the source computes with `math.sin`/`math.cos`/`math.asin`).
* `datetime.utcnow()` is modelled by an explicit logical clock `now : Int`
  measured in minutes (the source works with `timedelta(minutes=...)`
  windows: a 10-minute session TTL, a 30-minute duplicate window and a
  5-minute auto-match grace period).  Each handler invocation receives a
  single `now`, the way one call observes one wall-clock instant.
* Python's `float('inf')` sentinel returned by `calculate_distance` is the
  `⊤` of `WithTop Real`.
* `secrets.token_hex(3).upper()` and `strftime("%y%m%d")` are modelled by
  explicit numeric arguments (`rand`, `yy`, `mm`, `dd`) rendered to
  characters, and the process-wide string `hash` used as a scoring
  tie-break is an explicit function argument `hashName`.
* Mutating methods return the updated record (plus the Python return value
  where there is one); SQLAlchemy queries become list traversals over an
  explicit `SystemState`.
-/

namespace Arkshift

/-- `ResourceType` enum from `app/models.py`. -/
inductive ResourceType
  | shelter
  | food
  | transport
deriving DecidableEq

/-- `RequestStatus` enum from `app/models.py`. -/
inductive RequestStatus
  | pending
  | matched
  | confirmed
  | completed
  | cancelled
deriving DecidableEq

/-- The `resources` row (`app/models.py`, class `Resource`): the columns read
or written by the matching, allocation and USSD code. `contact_phone` is the
decrypted view of `encrypted_contact_phone` (`None` when absent). -/
structure Resource where
  id : Nat
  name : String
  resource_type : ResourceType
  location : String
  latitude : Option Real
  longitude : Option Real
  total_capacity : Int
  available_capacity : Int
  price_per_unit : Rat
  is_active : Bool
  contact_phone : Option String
  updated_at : Int

/-- The `emergency_requests` row (`app/models.py`, class `EmergencyRequest`). -/
structure EmergencyRequest where
  id : Nat
  reference_number : String
  user_id : Nat
  resource_id : Option Nat
  resource_type : ResourceType
  location : String
  latitude : Option Real
  longitude : Option Real
  quantity_needed : Int
  status : RequestStatus
  created_at : Int
  matched_at : Option Int
  priority_level : Int
  total_cost : Rat

/-- The shared persistent state the verified operations touch. -/
structure SystemState where
  resources : List Resource
  requests : List EmergencyRequest

/-- `Resource.update_capacity` (`app/models.py` lines 200-206): decrement
`available_capacity` when it covers `used_capacity`, returning the Python
method's boolean result alongside the updated row. -/
def Resource.update_capacity (r : Resource) (used_capacity : Int) (now : Int) :
    Resource × Bool :=
  if r.available_capacity ≥ used_capacity then
    ({ r with
        available_capacity := r.available_capacity - used_capacity
        updated_at := now }, true)
  else
    (r, false)

/-- `FraudDetection.check_duplicate_requests` (`app/security.py` lines
292-307): a non-cancelled request by the same user for the same type and
location text created after `now - time_window_minutes` exists. -/
def check_duplicate_requests (requests : List EmergencyRequest) (user_id : Nat)
    (resource_type : ResourceType) (location : String) (now : Int)
    (time_window_minutes : Int) : Bool :=
  requests.any fun q =>
    decide (q.user_id = user_id ∧ q.resource_type = resource_type ∧
      q.location = location ∧ now - time_window_minutes < q.created_at ∧
      q.status ≠ RequestStatus.cancelled)

/-- The `ussd_sessions` row (`app/models.py`, class `USSDSession`). -/
structure USSDSession where
  session_id : String
  user_id : Nat
  current_step : String
  created_at : Int
  last_activity : Int
  expires_at : Int
deriving DecidableEq

/-- `USSDSession.__init__` (`app/models.py` lines 285-290) together with the
column defaults applied on insert: step `start`, creation and last-activity
stamps at `now`, expiry 10 minutes later. -/
def USSDSession.create (session_id : String) (user_id : Nat) (now : Int) :
    USSDSession :=
  { session_id := session_id
    user_id := user_id
    current_step := "start"
    created_at := now
    last_activity := now
    expires_at := now + 10 }

/-- `USSDSession.is_expired` (`app/models.py` lines 292-294). -/
def USSDSession.is_expired (s : USSDSession) (now : Int) : Bool :=
  decide (s.expires_at < now)

/-- `USSDSession.extend_session` (`app/models.py` lines 296-299). -/
def USSDSession.extend_session (s : USSDSession) (now : Int) (minutes : Int) :
    USSDSession :=
  { s with expires_at := now + minutes, last_activity := now }

/-- `USSDMenuHandler._get_or_create_session` (`app/ussd/routes.py` lines
75-92): a stored session that is missing or expired is deleted and replaced
by a fresh one; a live one is extended by the default 10 minutes. -/
def get_or_create_session (sessions : List USSDSession) (session_id : String)
    (user_id : Nat) (now : Int) : List USSDSession × USSDSession :=
  match sessions.find? (fun s => s.session_id == session_id) with
  | none =>
      let s := USSDSession.create session_id user_id now
      (sessions ++ [s], s)
  | some s =>
      if s.is_expired now then
        let fresh := USSDSession.create session_id user_id now
        (sessions.filter (fun t => !(t.session_id == session_id)) ++ [fresh],
         fresh)
      else
        let s' := s.extend_session now 10
        (sessions.map (fun t => if t.session_id == session_id then s' else t),
         s')

/-- Decimal digit rendering used by `strftime("%y%m%d")`. -/
def digitChar (n : Nat) : Char :=
  match n with
  | 0 => '0'
  | 1 => '1'
  | 2 => '2'
  | 3 => '3'
  | 4 => '4'
  | 5 => '5'
  | 6 => '6'
  | 7 => '7'
  | 8 => '8'
  | _ => '9'

/-- Upper-case hexadecimal digit rendering used by
`secrets.token_hex(3).upper()`. -/
def hexCharUpper (n : Nat) : Char :=
  match n with
  | 0 => '0'
  | 1 => '1'
  | 2 => '2'
  | 3 => '3'
  | 4 => '4'
  | 5 => '5'
  | 6 => '6'
  | 7 => '7'
  | 8 => '8'
  | 9 => '9'
  | 10 => 'A'
  | 11 => 'B'
  | 12 => 'C'
  | 13 => 'D'
  | 14 => 'E'
  | _ => 'F'

/-- Two-digit zero-padded rendering of a calendar field. -/
def pad2 (n : Nat) : List Char :=
  [digitChar (n / 10), digitChar (n % 10)]

/-- Six upper-case hex characters for the three random bytes. -/
def hex6 (n : Nat) : List Char :=
  [hexCharUpper (n / 16 ^ 5 % 16), hexCharUpper (n / 16 ^ 4 % 16),
   hexCharUpper (n / 16 ^ 3 % 16), hexCharUpper (n / 16 ^ 2 % 16),
   hexCharUpper (n / 16 % 16), hexCharUpper (n % 16)]

/-- `EmergencyRequest.generate_reference_number` (`app/models.py` lines
253-259): `"ER"` + `strftime("%y%m%d")` of today + three random bytes as
upper-case hex; the date fields and random bytes are explicit arguments. -/
def generate_reference_number (yy mm dd rand : Nat) : String :=
  ⟨['E', 'R'] ++ pad2 yy ++ pad2 mm ++ pad2 dd ++ hex6 rand⟩

/-- An upper-case hexadecimal character. -/
def isHexDigitUpper (c : Char) : Bool :=
  c.isDigit || (decide ('A' ≤ c) && decide (c ≤ 'F'))

/-- The reference-number shape stated by the spec: `ER`, then six decimal
digits, then six hexadecimal characters. -/
def refPattern (s : String) : Prop :=
  s.data.length = 14 ∧ s.data.take 2 = ['E', 'R'] ∧
  ((s.data.drop 2).take 6).all Char.isDigit = true ∧
  ((s.data.drop 8).all isHexDigitUpper) = true

/-- `USSDMenuHandler._continue_session` (`app/ussd/routes.py` lines 316-318). -/
def continue_session (message : String) : String :=
  "CON " ++ message

/-- `USSDMenuHandler._end_session` (`app/ussd/routes.py` lines 320-327),
response part (the session row deletion is handled by the session store). -/
def end_session (message : String) : String :=
  "END " ++ message

/-- The session selections accumulated before the confirmation step
(`session_data` keys `resource_type`, `location`, `selected_resource_id`). -/
structure SessionData where
  resource_type : ResourceType
  location : String
  selected_resource_id : Nat
deriving DecidableEq

/-- `USSDMenuHandler._handle_confirmation` (`app/ussd/routes.py` lines
236-314).  `"2"` cancels, anything other than `"1"` re-prompts; on `"1"` the
resource is re-fetched and re-checked, the duplicate guard is consulted with
its default 30-minute window, and on success one request row is created with
status `matched`, the resource loses one unit of capacity, and the `END`
summary carries the reference number.  `next_id` stands for the database's
autoincrement key, `yy mm dd rand` feed the reference number. -/
def handle_confirmation (st : SystemState) (user_id : Nat) (sd : SessionData)
    (selection : String) (now : Int) (yy mm dd rand next_id : Nat) :
    SystemState × String :=
  if selection = "2" then
    (st, end_session "Request cancelled. Stay safe!")
  else if selection ≠ "1" then
    (st, continue_session "Please choose:\r\n1. Confirm\r\n2. Cancel")
  else
    match st.resources.find? (fun r => r.id == sd.selected_resource_id) with
    | none => (st, end_session "Resource no longer available. Please try again.")
    | some resource =>
      if resource.available_capacity ≤ 0 then
        (st, end_session "Resource no longer available. Please try again.")
      else if check_duplicate_requests st.requests user_id sd.resource_type
          sd.location now 30 then
        (st, end_session
          "You have a similar pending request. Please wait for it to be processed.")
      else
        let emergency_request : EmergencyRequest :=
          { id := next_id
            reference_number := generate_reference_number yy mm dd rand
            user_id := user_id
            resource_id := some sd.selected_resource_id
            resource_type := sd.resource_type
            location := sd.location
            latitude := none
            longitude := none
            quantity_needed := 1
            status := RequestStatus.matched
            created_at := now
            matched_at := some now
            priority_level := 1
            total_cost := resource.price_per_unit }
        let new_resources := st.resources.map fun r =>
          if r.id = resource.id then (r.update_capacity 1 now).1 else r
        ({ resources := new_resources
           requests := st.requests ++ [emergency_request] },
         end_session ("Request confirmed!\r\nReference: " ++
           emergency_request.reference_number ++ "\r\nProvider: " ++
           resource.name ++ "\r\nContact: " ++
           resource.contact_phone.getD "None" ++
           "\r\nYou will receive SMS confirmation shortly."))

/-- Python truthiness of an optional float: `None` and `0` are falsy.  The
source tests coordinates with `not all([...])`, `if user_lat and user_lon`
and `if resource.latitude and resource.longitude`. -/
def truthy (o : Option Real) : Prop :=
  o.getD 0 ≠ 0

noncomputable instance : DecidablePred truthy :=
  fun o => Classical.propDecidable (truthy o)

theorem truthy_none : ¬ truthy none := by
  simp [truthy]

theorem truthy_some (x : Real) : truthy (some x) ↔ x ≠ 0 := by
  simp [truthy]

theorem not_truthy_iff (o : Option Real) : ¬ truthy o ↔ o = none ∨ o = some 0 := by
  cases o <;> simp [truthy]

/-- `MatchingService.calculate_distance` (`app/services/matching_service.py`
lines 15-42): the haversine distance in kilometres, or `float('inf')`
(modelled by `⊤`) when any coordinate is missing or zero. -/
noncomputable def calculate_distance (lat1 lon1 lat2 lon2 : Option Real) :
    WithTop Real :=
  if truthy lat1 ∧ truthy lon1 ∧ truthy lat2 ∧ truthy lon2 then
    let rlat1 := lat1.getD 0 * Real.pi / 180
    let rlon1 := lon1.getD 0 * Real.pi / 180
    let rlat2 := lat2.getD 0 * Real.pi / 180
    let rlon2 := lon2.getD 0 * Real.pi / 180
    let dlat := rlat2 - rlat1
    let dlon := rlon2 - rlon1
    let a := Real.sin (dlat / 2) ^ 2 +
      Real.cos rlat1 * Real.cos rlat2 * Real.sin (dlon / 2) ^ 2
    let c := 2 * Real.arcsin (Real.sqrt a)
    ((c * 6371 : Real) : WithTop Real)
  else
    ⊤

/-- A resource as it flows out of `find_nearby_resources`: the coordinate
branch of the source dynamically attaches a `distance` attribute, the text
branch does not. -/
structure Candidate where
  res : Resource
  distance : Option Real

/-- One step of the coordinate branch of `find_nearby_resources` (lines
75-84): skip resources with falsy coordinates, compute the distance, keep
the resource when the distance is within the radius (an infinite distance
never satisfies `distance <= radius_km`). -/
noncomputable def coordWeigh (user_lat user_lon : Option Real)
    (radius_km : Real) (r : Resource) : Option Candidate :=
  if truthy r.latitude ∧ truthy r.longitude then
    (calculate_distance user_lat user_lon r.latitude r.longitude).recTopCoe
      none
      (fun d => if d ≤ radius_km then some ⟨r, some d⟩ else none)
  else
    none

/-- The key order of `nearby_resources.sort(key=lambda r: (r.distance,
-r.available_capacity))`: ascending distance, ties by descending capacity. -/
noncomputable def coordOrder (a b : Candidate) : Bool :=
  decide (a.distance.getD 0 < b.distance.getD 0 ∨
    (a.distance.getD 0 = b.distance.getD 0 ∧
      b.res.available_capacity ≤ a.res.available_capacity))

/-- The key order of `resources.sort(key=lambda r: -r.available_capacity)`. -/
def textOrder (a b : Resource) : Bool :=
  decide (b.available_capacity ≤ a.available_capacity)

/-- The `ilike('%location%')` filter of the text branch: case-insensitive
substring match between the stored location label and the query text. -/
def ilike_contains (hay pat : String) : Bool :=
  decide ((pat.data.map Char.toLower) <:+: (hay.data.map Char.toLower))

/-- `MatchingService.find_nearby_resources` (`app/services/matching_service.py`
lines 44-104): active resources of the requested type with spare capacity;
ranked by distance (then capacity) inside the radius when the caller's
coordinates are truthy, otherwise filtered by case-insensitive location text
and ranked by capacity alone. -/
noncomputable def find_nearby_resources (resources : List Resource)
    (resource_type : ResourceType) (location : String) (radius_km : Real)
    (user_lat user_lon : Option Real) : List Candidate :=
  let base := resources.filter fun r =>
    decide (r.resource_type = resource_type ∧ r.is_active = true ∧
      0 < r.available_capacity)
  if truthy user_lat ∧ truthy user_lon then
    (base.filterMap (coordWeigh user_lat user_lon radius_km)).mergeSort
      coordOrder
  else
    ((base.filter fun r => ilike_contains r.location location).mergeSort
      textOrder).map (fun r => ⟨r, none⟩)

/-- The scoring loop body of `MatchingService._apply_matching_algorithm`
(lines 169-201): distance score (or a flat 50 for text matches), capacity
headroom, urgency bonus for high-priority requests, free-service bonus and
the `hash(resource.name) % 10` tie-break.  `hashName` is the process's string
hash, fixed for the lifetime of the interpreter. -/
noncomputable def score (hashName : String → Int) (req : EmergencyRequest)
    (c : Candidate) : Real :=
  let distance_score : Real :=
    match c.distance with
    | some d => max 0 (100 - d * 2)
    | none => 50
  let capacity_score : Real :=
    ((c.res.available_capacity : Real) /
      ((max c.res.total_capacity 1 : Int) : Real)) * 50
  let priority_score : Real :=
    if 4 ≤ req.priority_level then
      if c.res.resource_type = ResourceType.transport then 30
      else if c.res.resource_type = ResourceType.shelter then 20
      else 0
    else 0
  let cost_score : Real := if c.res.price_per_unit = 0 then 25 else 0
  let tie_break : Real := ((hashName c.res.name % 10 : Int) : Real)
  distance_score + capacity_score + priority_score + cost_score + tie_break

/-- `MatchingService._apply_matching_algorithm` (lines 151-214): score every
candidate, sort descending by score, return the head. -/
noncomputable def apply_matching_algorithm (hashName : String → Int)
    (req : EmergencyRequest) (resources : List Candidate) : Option Candidate :=
  if resources.isEmpty then none
  else
    let scored := resources.map fun c => (c, score hashName req c)
    let sorted := scored.mergeSort fun a b => decide (b.2 ≤ a.2)
    sorted.head?.map (fun x => x.1)

/-- `MatchingService.match_request_to_resource` (lines 110-149), with the
configured `MAX_LOCATION_RADIUS_KM = 50` from `config.py`. -/
noncomputable def match_request_to_resource (hashName : String → Int)
    (resources : List Resource) (req : EmergencyRequest) : Option Candidate :=
  let cands := find_nearby_resources resources req.resource_type req.location
    50 req.latitude req.longitude
  if cands.isEmpty then none
  else apply_matching_algorithm hashName req cands

/-- The `{'total_processed': ..., 'matched': ..., 'failed': ...}` summary of
the auto-matcher. -/
structure MatchSummary where
  total_processed : Nat
  matched : Nat
  failed : Nat
deriving DecidableEq

/-- The `ORDER BY priority_level DESC, created_at` key of the auto-matcher's
selection query. -/
def pendingOrder (a b : EmergencyRequest) : Bool :=
  decide (b.priority_level < a.priority_level ∨
    (a.priority_level = b.priority_level ∧ a.created_at ≤ b.created_at))

/-- `MatchingService.auto_match_pending_requests`
(`app/services/matching_service.py` lines 216-305): select pending requests
at least five minutes old, ordered by descending priority then ascending
creation time; match each against the current resource state, and on a match
mark the request `matched` with timestamp and cost and call
`update_capacity` with the request's quantity (`quantity_needed or 1`),
whose boolean result the source discards. -/
noncomputable def auto_match_pending_requests (hashName : String → Int)
    (now : Int) (st : SystemState) : SystemState × MatchSummary :=
  let five_minutes_ago := now - 5
  let pending := (st.requests.filter fun q =>
    decide (q.status = RequestStatus.pending ∧
      q.created_at ≤ five_minutes_ago)).mergeSort pendingOrder
  let result := pending.foldl (fun (acc : SystemState × Nat × Nat) q =>
    match match_request_to_resource hashName acc.1.resources q with
    | some best =>
        let q' := { q with
          resource_id := some best.res.id
          status := RequestStatus.matched
          matched_at := some now
          total_cost := best.res.price_per_unit }
        ({ resources := acc.1.resources.map fun r =>
             if r.id = best.res.id then
               (r.update_capacity
                 (if q.quantity_needed = 0 then 1 else q.quantity_needed)
                 now).1
             else r
           requests := acc.1.requests.map fun r =>
             if r.id = q.id then q' else r },
         acc.2.1 + 1, acc.2.2)
    | none => (acc.1, acc.2.1, acc.2.2 + 1)) (st, 0, 0)
  (result.1,
   { total_processed := pending.length
     matched := result.2.1
     failed := result.2.2 })

/-- A concrete shelter resource used to instantiate proved theorems. -/
def witnessResource : Resource :=
  { id := 7
    name := "Camp A"
    resource_type := ResourceType.shelter
    location := "lokoja"
    latitude := none
    longitude := none
    total_capacity := 5
    available_capacity := 3
    price_per_unit := 0
    is_active := true
    contact_phone := none
    updated_at := 0 }

/-- A concrete non-cancelled request used to instantiate proved theorems. -/
def witnessDupRequest : EmergencyRequest :=
  { id := 1
    reference_number := "ER251012ABCDEF"
    user_id := 1
    resource_id := some 7
    resource_type := ResourceType.shelter
    location := "lokoja"
    latitude := none
    longitude := none
    quantity_needed := 1
    status := RequestStatus.pending
    created_at := 20
    matched_at := none
    priority_level := 1
    total_cost := 0 }

/-- Claim C2: `Resource.update_capacity` succeeds exactly when the available
capacity covers the requested quantity, in which case it decrements by that
quantity; on failure the resource is unchanged; hence for a non-negative
quantity the available capacity stays within `[0, total_capacity]`. -/
theorem claim_C2 (r : Resource) (q now : Int) :
    ((r.update_capacity q now).2 = true ↔ q ≤ r.available_capacity) ∧
    (r.update_capacity q now).1.total_capacity = r.total_capacity ∧
    ((r.update_capacity q now).2 = true →
      (r.update_capacity q now).1.available_capacity =
        r.available_capacity - q) ∧
    ((r.update_capacity q now).2 = false → (r.update_capacity q now).1 = r) ∧
    (0 ≤ q → 0 ≤ r.available_capacity →
      r.available_capacity ≤ r.total_capacity →
      0 ≤ (r.update_capacity q now).1.available_capacity ∧
      (r.update_capacity q now).1.available_capacity ≤
        (r.update_capacity q now).1.total_capacity) := by
  unfold Resource.update_capacity
  by_cases h : r.available_capacity ≥ q
  · rw [if_pos h]
    exact ⟨by simpa using h, rfl, fun _ => rfl, by simp,
      fun hq h0 ht =>
        ⟨show 0 ≤ r.available_capacity - q by omega,
         show r.available_capacity - q ≤ r.total_capacity by omega⟩⟩
  · rw [if_neg h]
    exact ⟨by simpa using h, rfl, by simp, fun _ => rfl,
      fun hq h0 ht => ⟨h0, ht⟩⟩

theorem claim_C2_witness :
    (witnessResource.update_capacity 2 0).2 = true ∧
    (witnessResource.update_capacity 2 0).1.available_capacity = 1 ∧
    0 ≤ (witnessResource.update_capacity 2 0).1.available_capacity ∧
    (witnessResource.update_capacity 2 0).1.available_capacity ≤
      (witnessResource.update_capacity 2 0).1.total_capacity := by
  have h := claim_C2 witnessResource 2 0
  have hs : (witnessResource.update_capacity 2 0).2 = true :=
    h.1.mpr (by decide)
  have hv := h.2.2.1 hs
  have hinv := h.2.2.2.2 (by decide) (by decide) (by decide)
  exact ⟨hs, by rw [hv]; decide, hinv.1, hinv.2⟩

/-- Claim C5: the duplicate guard is true exactly when some non-cancelled
request by the same caller with the same type and location text was created
inside the window; and a `"1"` confirmation blocked by the guard terminates
with the wait message, leaving the whole state (requests and every
resource's capacity) untouched. -/
theorem claim_C5 :
    (∀ (requests : List EmergencyRequest) (uid : Nat) (rt : ResourceType)
      (loc : String) (now win : Int),
      check_duplicate_requests requests uid rt loc now win = true ↔
        ∃ q ∈ requests, q.user_id = uid ∧ q.resource_type = rt ∧
          q.location = loc ∧ now - win < q.created_at ∧
          q.status ≠ RequestStatus.cancelled) ∧
    (∀ (st : SystemState) (uid : Nat) (sd : SessionData) (now : Int)
      (yy mm dd rand next_id : Nat) (res : Resource),
      st.resources.find? (fun r => r.id == sd.selected_resource_id) =
        some res →
      0 < res.available_capacity →
      check_duplicate_requests st.requests uid sd.resource_type sd.location
        now 30 = true →
      handle_confirmation st uid sd "1" now yy mm dd rand next_id =
        (st, end_session
          "You have a similar pending request. Please wait for it to be processed.")) := by
  constructor
  · intro requests uid rt loc now win
    simp [check_duplicate_requests, List.any_eq_true]
  · intro st uid sd now yy mm dd rand next_id res hfind hcap hdup
    unfold handle_confirmation
    rw [if_neg (by decide)]
    rw [if_neg (by simp)]
    simp only [hfind]
    rw [if_neg (by omega), if_pos hdup]

theorem claim_C5_witness :
    check_duplicate_requests [witnessDupRequest] 1 ResourceType.shelter
      "lokoja" 40 30 = true ∧
    handle_confirmation ⟨[witnessResource], [witnessDupRequest]⟩ 1
      ⟨ResourceType.shelter, "lokoja", 7⟩ "1" 40 25 10 12 255 2 =
      (⟨[witnessResource], [witnessDupRequest]⟩, end_session
        "You have a similar pending request. Please wait for it to be processed.") := by
  have h := claim_C5
  have hdup : check_duplicate_requests [witnessDupRequest] 1
      ResourceType.shelter "lokoja" 40 30 = true :=
    (h.1 [witnessDupRequest] 1 ResourceType.shelter "lokoja" 40 30).mpr
      ⟨witnessDupRequest, by simp, rfl, rfl, rfl, by decide, by decide⟩
  refine ⟨hdup, h.2 ⟨[witnessResource], [witnessDupRequest]⟩ 1
    ⟨ResourceType.shelter, "lokoja", 7⟩ 40 25 10 12 255 2 witnessResource
    rfl (by decide) hdup⟩

/-- `find?` can no longer hit after the matching entries are filtered out. -/
theorem find?_filter_not_none {α : Type} (p : α → Bool) (l : List α) :
    (l.filter fun x => !(p x)).find? p = none := by
  refine List.find?_eq_none.mpr fun x hx => ?_
  have := (List.mem_filter.mp hx).2
  simp at this
  simp [this]

/-- Claim C6: creation and (default) extension both set the expiry to the
last-activity stamp plus the 10-minute TTL; and a call that finds only an
expired session behaves exactly like a call that finds none: the stored
session is discarded and a fresh session at step `start` is created. -/
theorem claim_C6 :
    (∀ (sid : String) (uid : Nat) (now : Int),
      (USSDSession.create sid uid now).expires_at =
        (USSDSession.create sid uid now).last_activity + 10 ∧
      (USSDSession.create sid uid now).current_step = "start") ∧
    (∀ (s : USSDSession) (now : Int),
      (s.extend_session now 10).expires_at =
        (s.extend_session now 10).last_activity + 10) ∧
    (∀ (sessions : List USSDSession) (sid : String) (uid : Nat) (now : Int)
      (s : USSDSession),
      sessions.find? (fun t => t.session_id == sid) = some s →
      s.is_expired now = true →
      get_or_create_session sessions sid uid now =
        (sessions.filter (fun t => !(t.session_id == sid)) ++
          [USSDSession.create sid uid now], USSDSession.create sid uid now) ∧
      get_or_create_session
          (sessions.filter fun t => !(t.session_id == sid)) sid uid now =
        (sessions.filter (fun t => !(t.session_id == sid)) ++
          [USSDSession.create sid uid now], USSDSession.create sid uid now)) := by
  refine ⟨fun sid uid now => ⟨rfl, rfl⟩, fun s now => rfl, ?_⟩
  intro sessions sid uid now s hfind hexp
  constructor
  · unfold get_or_create_session
    rw [hfind]
    simp only [hexp, if_pos]
  · unfold get_or_create_session
    rw [find?_filter_not_none (fun t => t.session_id == sid) sessions]

theorem claim_C6_witness :
    (USSDSession.create "abc" 1 0).expires_at =
      (USSDSession.create "abc" 1 0).last_activity + 10 ∧
    get_or_create_session [USSDSession.create "abc" 1 0] "abc" 1 11 =
      ([USSDSession.create "abc" 1 11], USSDSession.create "abc" 1 11) := by
  have h := claim_C6
  have h3 := h.2.2 [USSDSession.create "abc" 1 0] "abc" 1 11
    (USSDSession.create "abc" 1 0) (by decide) (by decide)
  refine ⟨(h.1 "abc" 1 0).1, ?_⟩
  rw [h3.1]
  decide

/-- The squared sine of a half-difference is unchanged when the difference
is flipped. -/
theorem sin_sq_half_sub_comm (x y : Real) :
    Real.sin ((x - y) / 2) ^ 2 = Real.sin ((y - x) / 2) ^ 2 := by
  rw [show (x - y) / 2 = -((y - x) / 2) by ring, Real.sin_neg]
  ring

/-- The haversine radicand is symmetric in the two points. -/
theorem haversine_radicand_comm (a b c d : Real) :
    Real.sin ((b - a) / 2) ^ 2 +
      Real.cos a * Real.cos b * Real.sin ((d - c) / 2) ^ 2 =
    Real.sin ((a - b) / 2) ^ 2 +
      Real.cos b * Real.cos a * Real.sin ((c - d) / 2) ^ 2 := by
  rw [sin_sq_half_sub_comm b a, sin_sq_half_sub_comm d c,
    mul_comm (Real.cos a) (Real.cos b)]

/-- Claim C9 (amended): the haversine distance is symmetric for all inputs,
and `distance(A, A) = 0` holds for every point whose latitude and longitude
are both present and nonzero (a missing or zero coordinate yields the
infinite sentinel instead, see the counterexample). -/
theorem claim_C9 :
    (∀ lat1 lon1 lat2 lon2 : Option Real,
      calculate_distance lat1 lon1 lat2 lon2 =
        calculate_distance lat2 lon2 lat1 lon1) ∧
    (∀ lat lon : Option Real, truthy lat → truthy lon →
      calculate_distance lat lon lat lon = 0) := by
  constructor
  · intro lat1 lon1 lat2 lon2
    unfold calculate_distance
    by_cases h : truthy lat1 ∧ truthy lon1 ∧ truthy lat2 ∧ truthy lon2
    · rw [if_pos h, if_pos (by tauto)]
      dsimp only
      rw [haversine_radicand_comm]
    · rw [if_neg h, if_neg (by tauto)]
  · intro lat lon hlat hlon
    unfold calculate_distance
    rw [if_pos ⟨hlat, hlon, hlat, hlon⟩]
    dsimp only
    norm_num

/-- The claim `distance(A, A) = 0` fails as stated: the point with latitude 0
and longitude 30 has infinite self-distance, because the source treats a
zero coordinate as missing. -/
theorem claim_C9_counterexample :
    calculate_distance (some 0) (some 30) (some 0) (some 30) ≠ 0 := by
  unfold calculate_distance
  rw [if_neg (by simp [truthy])]
  simp

theorem claim_C9_witness :
    truthy (some (1 : Real)) ∧ truthy (some (2 : Real)) ∧
    calculate_distance (some 1) (some 2) (some 1) (some 2) = 0 := by
  have h1 : truthy (some (1 : Real)) := by rw [truthy_some]; norm_num
  have h2 : truthy (some (2 : Real)) := by rw [truthy_some]; norm_num
  exact ⟨h1, h2, claim_C9.2 (some 1) (some 2) h1 h2⟩

/-- Characterisation of the per-resource step of the coordinate branch. -/
theorem coordWeigh_eq_some (ulat ulon : Option Real) (radius : Real)
    (r : Resource) (c : Candidate) :
    coordWeigh ulat ulon radius r = some c ↔
      truthy r.latitude ∧ truthy r.longitude ∧
      ∃ d : Real,
        calculate_distance ulat ulon r.latitude r.longitude =
          (d : WithTop Real) ∧ d ≤ radius ∧ c = ⟨r, some d⟩ := by
  unfold coordWeigh
  by_cases h : truthy r.latitude ∧ truthy r.longitude
  · rw [if_pos h]
    obtain ⟨h1, h2⟩ := h
    rcases eq_or_ne (calculate_distance ulat ulon r.latitude r.longitude) ⊤
      with hcd | hcd
    · rw [hcd]
      simp [h1, h2]
    · obtain ⟨d, hd⟩ := WithTop.ne_top_iff_exists.mp hcd
      rw [← hd]
      by_cases hle : d ≤ radius
      · simp only [WithTop.recTopCoe_coe, if_pos hle]
        constructor
        · rintro h'
          exact ⟨h1, h2, d, rfl, hle, (Option.some_inj.mp h').symm⟩
        · rintro ⟨-, -, d', hd', -, hc⟩
          rw [WithTop.coe_eq_coe] at hd'
          rw [hc, ← hd']
      · simp only [WithTop.recTopCoe_coe, if_neg hle]
        constructor
        · rintro h'
          exact absurd h' (by simp)
        · rintro ⟨-, -, d', hd', hle', -⟩
          rw [WithTop.coe_eq_coe] at hd'
          exact absurd (hd' ▸ hle') hle
  · rw [if_neg h]
    exact iff_of_false (by simp) fun h' => h ⟨h'.1, h'.2.1⟩

/-- Membership in the base `active / right type / spare capacity` filter. -/
theorem mem_baseFilter (resources : List Resource) (t : ResourceType)
    (r : Resource) :
    r ∈ resources.filter (fun r =>
      decide (r.resource_type = t ∧ r.is_active = true ∧
        0 < r.available_capacity)) ↔
    r ∈ resources ∧ r.resource_type = t ∧ r.is_active = true ∧
      0 < r.available_capacity := by
  simp [List.mem_filter]

/-- Membership characterisation of the coordinate branch of
`find_nearby_resources`. -/
theorem find_nearby_coord_mem (resources : List Resource) (t : ResourceType)
    (loc : String) (radius : Real) (ulat ulon : Option Real)
    (hu : truthy ulat) (hv : truthy ulon) (c : Candidate) :
    c ∈ find_nearby_resources resources t loc radius ulat ulon ↔
      ∃ r ∈ resources, r.resource_type = t ∧ r.is_active = true ∧
        0 < r.available_capacity ∧ truthy r.latitude ∧ truthy r.longitude ∧
        ∃ d : Real,
          calculate_distance ulat ulon r.latitude r.longitude =
            (d : WithTop Real) ∧ d ≤ radius ∧ c = ⟨r, some d⟩ := by
  unfold find_nearby_resources
  dsimp only
  rw [if_pos ⟨hu, hv⟩]
  rw [List.mem_mergeSort, List.mem_filterMap]
  constructor
  · rintro ⟨r, hr, hw⟩
    obtain ⟨hr1, hr2, hr3, hr4⟩ := (mem_baseFilter resources t r).mp hr
    obtain ⟨hl1, hl2, d, hd, hdr, hc⟩ :=
      (coordWeigh_eq_some ulat ulon radius r c).mp hw
    exact ⟨r, hr1, hr2, hr3, hr4, hl1, hl2, d, hd, hdr, hc⟩
  · rintro ⟨r, hr1, hr2, hr3, hr4, hl1, hl2, d, hd, hdr, hc⟩
    exact ⟨r, (mem_baseFilter resources t r).mpr ⟨hr1, hr2, hr3, hr4⟩,
      (coordWeigh_eq_some ulat ulon radius r c).mpr
        ⟨hl1, hl2, d, hd, hdr, hc⟩⟩

/-- Membership characterisation of the text branch of
`find_nearby_resources`. -/
theorem find_nearby_text_mem (resources : List Resource) (t : ResourceType)
    (loc : String) (radius : Real) (ulat ulon : Option Real)
    (h : ¬ (truthy ulat ∧ truthy ulon)) (c : Candidate) :
    c ∈ find_nearby_resources resources t loc radius ulat ulon ↔
      c.distance = none ∧ c.res ∈ resources ∧ c.res.resource_type = t ∧
      c.res.is_active = true ∧ 0 < c.res.available_capacity ∧
      ilike_contains c.res.location loc = true := by
  unfold find_nearby_resources
  dsimp only
  rw [if_neg h]
  rw [List.mem_map]
  constructor
  · rintro ⟨r, hr, hc⟩
    rw [List.mem_mergeSort, List.mem_filter] at hr
    obtain ⟨hr1, hr2⟩ := hr
    obtain ⟨hm, ht, ha, hcap⟩ := (mem_baseFilter resources t r).mp hr1
    exact hc ▸ ⟨rfl, hm, ht, ha, hcap, hr2⟩
  · rintro ⟨hdist, hm, ht, ha, hcap, hloc⟩
    refine ⟨c.res, ?_, ?_⟩
    · rw [List.mem_mergeSort, List.mem_filter]
      exact ⟨(mem_baseFilter resources t c.res).mpr ⟨hm, ht, ha, hcap⟩, hloc⟩
    · cases c with
      | mk res dist => cases hdist; rfl

/-- Claim C10: a missing or zero coordinate argument makes
`calculate_distance` return the infinite sentinel; the coordinate branch of
the search therefore never returns a resource whose latitude or longitude is
missing or zero; and a caller whose latitude or longitude is zero is routed
to the text branch, exactly as if no coordinates were supplied. -/
theorem claim_C10 :
    (∀ lat1 lon1 lat2 lon2 : Option Real,
      (lat1 = none ∨ lat1 = some 0 ∨ lon1 = none ∨ lon1 = some 0 ∨
       lat2 = none ∨ lat2 = some 0 ∨ lon2 = none ∨ lon2 = some 0) →
      calculate_distance lat1 lon1 lat2 lon2 = ⊤) ∧
    (∀ (resources : List Resource) (t : ResourceType) (loc : String)
      (radius : Real) (ulat ulon : Option Real),
      truthy ulat → truthy ulon →
      ∀ c ∈ find_nearby_resources resources t loc radius ulat ulon,
        c.res.latitude ≠ none ∧ c.res.latitude ≠ some 0 ∧
        c.res.longitude ≠ none ∧ c.res.longitude ≠ some 0) ∧
    (∀ (resources : List Resource) (t : ResourceType) (loc : String)
      (radius : Real) (ulat ulon : Option Real),
      ulat = some 0 ∨ ulon = some 0 →
      find_nearby_resources resources t loc radius ulat ulon =
        find_nearby_resources resources t loc radius none none) := by
  refine ⟨?_, ?_, ?_⟩
  · intro lat1 lon1 lat2 lon2 h
    unfold calculate_distance
    rcases h with h | h | h | h | h | h | h | h <;>
      rw [if_neg (by subst h; simp [truthy])]
  · intro resources t loc radius ulat ulon hu hv c hc
    obtain ⟨r, -, -, -, -, hl1, hl2, d, -, -, hcc⟩ :=
      (find_nearby_coord_mem resources t loc radius ulat ulon hu hv c).mp hc
    subst hcc
    have e1 : r.latitude ≠ none ∧ r.latitude ≠ some 0 := by
      constructor <;> intro h <;> rw [h] at hl1 <;> simp [truthy] at hl1
    have e2 : r.longitude ≠ none ∧ r.longitude ≠ some 0 := by
      constructor <;> intro h <;> rw [h] at hl2 <;> simp [truthy] at hl2
    exact ⟨e1.1, e1.2, e2.1, e2.2⟩
  · intro resources t loc radius ulat ulon h
    have hnot : ¬ (truthy ulat ∧ truthy ulon) := by
      rcases h with h | h <;> subst h <;> simp [truthy]
    have hnot' : ¬ (truthy (none : Option Real) ∧ truthy (none : Option Real)) := by
      simp [truthy]
    unfold find_nearby_resources
    dsimp only
    rw [if_neg hnot, if_neg hnot']

theorem claim_C10_witness :
    calculate_distance none (some 3) (some 4) (some 5) = ⊤ ∧
    truthy (some (3 : Real)) ∧
    (∀ c ∈ find_nearby_resources [] ResourceType.food "x" 50 (some 3) (some 3),
      c.res.latitude ≠ none ∧ c.res.latitude ≠ some 0 ∧
      c.res.longitude ≠ none ∧ c.res.longitude ≠ some 0) ∧
    find_nearby_resources [witnessResource] ResourceType.shelter "lokoja" 50
        (some 0) (some 9) =
      find_nearby_resources [witnessResource] ResourceType.shelter "lokoja" 50
        none none := by
  have h3 : truthy (some (3 : Real)) := by rw [truthy_some]; norm_num
  exact ⟨claim_C10.1 none (some 3) (some 4) (some 5) (Or.inl rfl), h3,
    claim_C10.2.1 [] ResourceType.food "x" 50 (some 3) (some 3) h3 h3,
    claim_C10.2.2 [witnessResource] ResourceType.shelter "lokoja" 50
      (some 0) (some 9) (Or.inl rfl)⟩

theorem coordOrder_trans (a b c : Candidate) (hab : coordOrder a b = true)
    (hbc : coordOrder b c = true) : coordOrder a c = true := by
  simp only [coordOrder, decide_eq_true_eq] at hab hbc ⊢
  rcases hab with h1 | ⟨h1, h2⟩ <;> rcases hbc with h3 | ⟨h3, h4⟩
  · exact Or.inl (lt_trans h1 h3)
  · exact Or.inl (h3 ▸ h1)
  · exact Or.inl (h1 ▸ h3)
  · exact Or.inr ⟨h1.trans h3, le_trans h4 h2⟩

theorem coordOrder_total (a b : Candidate) :
    (coordOrder a b || coordOrder b a) = true := by
  simp only [coordOrder, Bool.or_eq_true, decide_eq_true_eq]
  rcases lt_trichotomy (a.distance.getD 0) (b.distance.getD 0) with h | h | h
  · exact Or.inl (Or.inl h)
  · rcases le_total b.res.available_capacity a.res.available_capacity with
      h2 | h2
    · exact Or.inl (Or.inr ⟨h, h2⟩)
    · exact Or.inr (Or.inr ⟨h.symm, h2⟩)
  · exact Or.inr (Or.inl h)

theorem textOrder_trans (a b c : Resource) (hab : textOrder a b = true)
    (hbc : textOrder b c = true) : textOrder a c = true := by
  simp only [textOrder, decide_eq_true_eq] at hab hbc ⊢
  omega

theorem textOrder_total (a b : Resource) :
    (textOrder a b || textOrder b a) = true := by
  simp only [textOrder, Bool.or_eq_true, decide_eq_true_eq]
  omega

/-- Claim C7: the candidate search returns only active resources of the
requested type with spare capacity; with truthy caller coordinates the
output is exactly the in-radius resources carrying truthy coordinates,
sorted ascending by distance with ties broken by descending capacity; with
no truthy coordinates the output is exactly the resources whose location
label contains the query case-insensitively, sorted by descending capacity. -/
theorem claim_C7 (resources : List Resource) (t : ResourceType) (loc : String)
    (radius : Real) (ulat ulon : Option Real) :
    (∀ c ∈ find_nearby_resources resources t loc radius ulat ulon,
      c.res.is_active = true ∧ c.res.resource_type = t ∧
      0 < c.res.available_capacity) ∧
    (truthy ulat → truthy ulon →
      (∀ c, c ∈ find_nearby_resources resources t loc radius ulat ulon ↔
        ∃ r ∈ resources, r.resource_type = t ∧ r.is_active = true ∧
          0 < r.available_capacity ∧ truthy r.latitude ∧ truthy r.longitude ∧
          ∃ d : Real,
            calculate_distance ulat ulon r.latitude r.longitude =
              (d : WithTop Real) ∧ d ≤ radius ∧ c = ⟨r, some d⟩) ∧
      (find_nearby_resources resources t loc radius ulat ulon).Pairwise
        (fun a b => a.distance.getD 0 < b.distance.getD 0 ∨
          (a.distance.getD 0 = b.distance.getD 0 ∧
            b.res.available_capacity ≤ a.res.available_capacity))) ∧
    (¬ (truthy ulat ∧ truthy ulon) →
      (∀ c, c ∈ find_nearby_resources resources t loc radius ulat ulon ↔
        c.distance = none ∧ c.res ∈ resources ∧ c.res.resource_type = t ∧
        c.res.is_active = true ∧ 0 < c.res.available_capacity ∧
        ilike_contains c.res.location loc = true) ∧
      (find_nearby_resources resources t loc radius ulat ulon).Pairwise
        (fun a b =>
          b.res.available_capacity ≤ a.res.available_capacity)) := by
  refine ⟨?_, ?_, ?_⟩
  · intro c hc
    by_cases h : truthy ulat ∧ truthy ulon
    · obtain ⟨r, -, ht, ha, hcap, -, -, d, -, -, hcc⟩ :=
        (find_nearby_coord_mem resources t loc radius ulat ulon h.1 h.2 c).mp
          hc
      subst hcc
      exact ⟨ha, ht, hcap⟩
    · obtain ⟨-, -, ht, ha, hcap, -⟩ :=
        (find_nearby_text_mem resources t loc radius ulat ulon h c).mp hc
      exact ⟨ha, ht, hcap⟩
  · intro hu hv
    refine ⟨fun c => find_nearby_coord_mem resources t loc radius ulat ulon
      hu hv c, ?_⟩
    have hsorted :
        (find_nearby_resources resources t loc radius ulat ulon).Pairwise
          (fun a b => coordOrder a b = true) := by
      unfold find_nearby_resources
      dsimp only
      rw [if_pos ⟨hu, hv⟩]
      exact List.sorted_mergeSort coordOrder_trans coordOrder_total _
    refine hsorted.imp ?_
    intro a b hab
    simpa [coordOrder, decide_eq_true_eq] using hab
  · intro h
    refine ⟨fun c => find_nearby_text_mem resources t loc radius ulat ulon
      h c, ?_⟩
    have hsorted :
        ((resources.filter fun r =>
            decide (r.resource_type = t ∧ r.is_active = true ∧
              0 < r.available_capacity)).filter
          (fun r => ilike_contains r.location loc)).mergeSort
            textOrder |>.Pairwise (fun a b => textOrder a b = true) :=
      List.sorted_mergeSort textOrder_trans textOrder_total _
    unfold find_nearby_resources
    dsimp only
    rw [if_neg h]
    exact hsorted.map _ fun a b hab => by
      simpa [textOrder, decide_eq_true_eq] using hab

theorem claim_C7_witness :
    ¬ (truthy (none : Option Real) ∧ truthy (none : Option Real)) ∧
    (⟨witnessResource, none⟩ : Candidate) ∈
      find_nearby_resources [witnessResource] ResourceType.shelter "lokoja"
        50 none none ∧
    (∀ c ∈ find_nearby_resources [witnessResource] ResourceType.shelter
        "lokoja" 50 none none,
      c.res.is_active = true ∧ c.res.resource_type = ResourceType.shelter ∧
      0 < c.res.available_capacity) := by
  have hnot : ¬ (truthy (none : Option Real) ∧ truthy (none : Option Real)) := by
    simp [truthy]
  have h := claim_C7 [witnessResource] ResourceType.shelter "lokoja" 50
    none none
  refine ⟨hnot, ?_, h.1⟩
  refine ((h.2.2 hnot).1 ⟨witnessResource, none⟩).mpr ?_
  refine ⟨rfl, by simp, rfl, rfl, by decide, by decide⟩

theorem scoreDesc_trans (a b c : Candidate × Real)
    (hab : decide (b.2 ≤ a.2) = true) (hbc : decide (c.2 ≤ b.2) = true) :
    decide (c.2 ≤ a.2) = true := by
  simp only [decide_eq_true_eq] at hab hbc ⊢
  exact le_trans hbc hab

theorem scoreDesc_total (a b : Candidate × Real) :
    (decide (b.2 ≤ a.2) || decide (a.2 ≤ b.2)) = true := by
  simp only [Bool.or_eq_true, decide_eq_true_eq]
  exact le_total b.2 a.2

/-- The head of the score-sorted list is a member with maximal score. -/
theorem apply_matching_best (hashName : String → Int)
    (req : EmergencyRequest) (cands : List Candidate) (h : cands ≠ []) :
    ∃ best, apply_matching_algorithm hashName req cands = some best ∧
      best ∈ cands ∧
      ∀ c ∈ cands, score hashName req c ≤ score hashName req best := by
  unfold apply_matching_algorithm
  rw [if_neg (by simpa [List.isEmpty_iff] using h)]
  dsimp only
  have hperm :
      ((cands.map fun c => (c, score hashName req c)).mergeSort
        (fun a b => decide (b.2 ≤ a.2))).Perm
        (cands.map fun c => (c, score hashName req c)) :=
    List.mergeSort_perm _ _
  have hpair :
      ((cands.map fun c => (c, score hashName req c)).mergeSort
        (fun a b => decide (b.2 ≤ a.2))).Pairwise
        (fun a b => decide (b.2 ≤ a.2) = true) :=
    List.sorted_mergeSort scoreDesc_trans scoreDesc_total _
  have hne :
      (cands.map fun c => (c, score hashName req c)).mergeSort
        (fun a b => decide (b.2 ≤ a.2)) ≠ [] := by
    intro h0
    rw [h0] at hperm
    exact h (List.map_eq_nil_iff.mp hperm.symm.eq_nil)
  obtain ⟨b, tl, hbt⟩ := List.exists_cons_of_ne_nil hne
  have hbmem : b ∈ cands.map fun c => (c, score hashName req c) :=
    hperm.subset (by rw [hbt]; exact List.mem_cons_self b tl)
  obtain ⟨cb, hcb, hcbe⟩ := List.mem_map.mp hbmem
  obtain ⟨hb1, hb2⟩ := Prod.mk.injEq .. ▸ hcbe
  refine ⟨b.1, by rw [hbt]; rfl, by rw [← hb1]; exact hcb, ?_⟩
  intro c hc
  have hcs : (c, score hashName req c) ∈
      (cands.map fun c => (c, score hashName req c)).mergeSort
        (fun a b => decide (b.2 ≤ a.2)) :=
    hperm.mem_iff.mpr (List.mem_map_of_mem _ hc)
  rw [hbt] at hcs
  have hscore_b : score hashName req b.1 = b.2 := by
    rw [← hb1, hb2]
  rcases List.mem_cons.mp hcs with heq | hmem
  · rw [hscore_b, ← heq]
  · have := (List.pairwise_cons.mp (hbt ▸ hpair)).1 _ hmem
    simp only [decide_eq_true_eq] at this
    rw [hscore_b]
    exact this

/-- Claim C8: the matching score is the stated weighted sum — distance term
(or flat 50 without a distance), capacity-headroom term, urgency bonus,
free-service bonus — plus a tie-break in `[0, 10)` derived from the
resource's name; and the algorithm selects a candidate of maximal score. -/
theorem claim_C8 :
    (∀ (hashName : String → Int) (req : EmergencyRequest) (c : Candidate),
      1 ≤ c.res.total_capacity →
      ∃ tie : Real, 0 ≤ tie ∧ tie < 10 ∧
        score hashName req c =
          (match c.distance with
            | some d => max 0 (100 - d * 2)
            | none => 50)
          + ((c.res.available_capacity : Real) /
              (c.res.total_capacity : Real)) * 50
          + (if 4 ≤ req.priority_level then
              if c.res.resource_type = ResourceType.transport then 30
              else if c.res.resource_type = ResourceType.shelter then 20
              else 0
             else 0)
          + (if c.res.price_per_unit = 0 then 25 else 0) + tie) ∧
    (∀ (hashName : String → Int) (req : EmergencyRequest)
      (cands : List Candidate), cands ≠ [] →
      ∃ best, apply_matching_algorithm hashName req cands = some best ∧
        best ∈ cands ∧
        ∀ c ∈ cands, score hashName req c ≤ score hashName req best) := by
  constructor
  · intro hashName req c htot
    refine ⟨((hashName c.res.name % 10 : Int) : Real), ?_, ?_, ?_⟩
    · exact_mod_cast Int.emod_nonneg _ (by norm_num)
    · exact_mod_cast Int.emod_lt_of_pos _ (by norm_num)
    · unfold score
      dsimp only
      rw [max_eq_left htot]
  · exact apply_matching_best

theorem claim_C8_witness :
    (1 : Int) ≤ witnessResource.total_capacity ∧
    (∃ tie : Real, 0 ≤ tie ∧ tie < 10 ∧
      score (fun _ => 3) witnessDupRequest ⟨witnessResource, none⟩ =
        (match (none : Option Real) with
          | some d => max 0 (100 - d * 2)
          | none => 50)
        + ((witnessResource.available_capacity : Real) /
            (witnessResource.total_capacity : Real)) * 50
        + (if 4 ≤ witnessDupRequest.priority_level then
            if witnessResource.resource_type = ResourceType.transport then 30
            else if witnessResource.resource_type = ResourceType.shelter
              then 20
            else 0
           else 0)
        + (if witnessResource.price_per_unit = 0 then 25 else 0) + tie) ∧
    ([(⟨witnessResource, none⟩ : Candidate)] ≠ []) ∧
    (∃ best,
      apply_matching_algorithm (fun _ => 3) witnessDupRequest
        [⟨witnessResource, none⟩] = some best ∧
      best ∈ [(⟨witnessResource, none⟩ : Candidate)] ∧
      ∀ c ∈ [(⟨witnessResource, none⟩ : Candidate)],
        score (fun _ => 3) witnessDupRequest c ≤
          score (fun _ => 3) witnessDupRequest best) := by
  refine ⟨by decide, ?_, by simp, ?_⟩
  · exact claim_C8.1 (fun _ => 3) witnessDupRequest ⟨witnessResource, none⟩
      (by decide)
  · exact claim_C8.2 (fun _ => 3) witnessDupRequest [⟨witnessResource, none⟩]
      (by simp)

/-- Claim C4: the candidate search and the scoring selection are functions
of the resource state and the request attributes they read (for scoring,
only the priority level): two invocations on an identical resource state and
identical request attributes, in the same process (same string hash), give
identical candidate orderings and an identical chosen resource. -/
theorem claim_C4 (hashName : String → Int)
    (resources1 resources2 : List Resource) (t : ResourceType) (loc : String)
    (radius : Real) (ulat ulon : Option Real)
    (req1 req2 : EmergencyRequest) (cands1 cands2 : List Candidate)
    (hres : resources1 = resources2)
    (hreq : req1.priority_level = req2.priority_level)
    (hcands : cands1 = cands2) :
    find_nearby_resources resources1 t loc radius ulat ulon =
      find_nearby_resources resources2 t loc radius ulat ulon ∧
    apply_matching_algorithm hashName req1 cands1 =
      apply_matching_algorithm hashName req2 cands2 := by
  subst hres
  subst hcands
  have hscore : ∀ c, score hashName req1 c = score hashName req2 c := by
    intro c
    unfold score
    rw [hreq]
  refine ⟨rfl, ?_⟩
  unfold apply_matching_algorithm
  simp only [hscore]

theorem claim_C4_witness :
    find_nearby_resources [witnessResource] ResourceType.shelter "lokoja" 50
        none none =
      find_nearby_resources [witnessResource] ResourceType.shelter "lokoja" 50
        none none ∧
    apply_matching_algorithm (fun _ => 0) witnessDupRequest
        [⟨witnessResource, none⟩] =
      apply_matching_algorithm (fun _ => 0) witnessDupRequest
        [⟨witnessResource, none⟩] :=
  claim_C4 (fun _ => 0) [witnessResource] [witnessResource]
    ResourceType.shelter "lokoja" 50 none none witnessDupRequest
    witnessDupRequest [⟨witnessResource, none⟩] [⟨witnessResource, none⟩]
    rfl rfl rfl

theorem digitChar_isDigit (n : Nat) : (digitChar n).isDigit = true := by
  unfold digitChar
  split <;> decide

theorem hexCharUpper_isHex (n : Nat) :
    isHexDigitUpper (hexCharUpper n) = true := by
  unfold hexCharUpper
  split <;> decide

/-- Every generated reference number matches the documented shape. -/
theorem refPattern_generate (yy mm dd rand : Nat) :
    refPattern (generate_reference_number yy mm dd rand) := by
  unfold refPattern generate_reference_number pad2 hex6
  refine ⟨rfl, rfl, ?_, ?_⟩
  · simp [digitChar_isDigit]
  · simp [hexCharUpper_isHex]

/-- With primary-key-unique resource ids, two stored resources with the same
id coincide. -/
theorem resource_eq_of_id_eq {l : List Resource}
    (hN : (l.map Resource.id).Nodup) {a b : Resource} (ha : a ∈ l)
    (hb : b ∈ l) (hid : a.id = b.id) : a = b :=
  List.inj_on_of_nodup_map hN ha hb hid

/-- Claim C1: a `"1"` at the confirmation step, with the selected resource
present and non-depleted and no duplicate blocked by the 30-minute guard,
creates exactly one request with status `matched`, a match timestamp, and
cost equal to the resource's unit price; decrements that resource's
available capacity by exactly one (others untouched); and terminates with an
`END` response carrying a reference number of shape `ER` + six digits + six
hex characters. -/
theorem claim_C1 (st : SystemState) (uid : Nat) (sd : SessionData)
    (now : Int) (yy mm dd rand next_id : Nat) (res : Resource)
    (hN : (st.resources.map Resource.id).Nodup)
    (hfind : st.resources.find? (fun r => r.id == sd.selected_resource_id) =
      some res)
    (hcap : 0 < res.available_capacity)
    (hdup : check_duplicate_requests st.requests uid sd.resource_type
      sd.location now 30 = false) :
    ∃ nr : EmergencyRequest,
      handle_confirmation st uid sd "1" now yy mm dd rand next_id =
        ({ resources := st.resources.map fun r =>
             if r.id = res.id then
               { r with
                  available_capacity := r.available_capacity - 1
                  updated_at := now }
             else r
           requests := st.requests ++ [nr] },
         "END " ++ ("Request confirmed!\r\nReference: " ++
           nr.reference_number ++ "\r\nProvider: " ++ res.name ++
           "\r\nContact: " ++ res.contact_phone.getD "None" ++
           "\r\nYou will receive SMS confirmation shortly.")) ∧
      nr.status = RequestStatus.matched ∧
      nr.matched_at = some now ∧
      nr.total_cost = res.price_per_unit ∧
      nr.user_id = uid ∧
      refPattern nr.reference_number := by
  refine ⟨{ id := next_id
            reference_number := generate_reference_number yy mm dd rand
            user_id := uid
            resource_id := some sd.selected_resource_id
            resource_type := sd.resource_type
            location := sd.location
            latitude := none
            longitude := none
            quantity_needed := 1
            status := RequestStatus.matched
            created_at := now
            matched_at := some now
            priority_level := 1
            total_cost := res.price_per_unit },
    ?_, rfl, rfl, rfl, rfl, refPattern_generate yy mm dd rand⟩
  unfold handle_confirmation
  rw [if_neg (by decide), if_neg (by simp)]
  simp only [hfind]
  rw [if_neg (by omega), if_neg (by simp [hdup])]
  have hres_mem : res ∈ st.resources := List.mem_of_find?_eq_some hfind
  have hmap : st.resources.map
      (fun r => if r.id = res.id then (r.update_capacity 1 now).1 else r) =
      st.resources.map fun r =>
        if r.id = res.id then
          { r with
              available_capacity := r.available_capacity - 1
              updated_at := now }
        else r := by
    apply List.map_congr_left
    intro r hr
    by_cases hid : r.id = res.id
    · have hr_eq : r = res := resource_eq_of_id_eq hN hr hres_mem hid
      rw [if_pos hid, if_pos hid]
      unfold Resource.update_capacity
      rw [if_pos (by rw [hr_eq]; omega)]
    · rw [if_neg hid, if_neg hid]
  rw [hmap]
  rfl

theorem claim_C1_witness :
    ∃ nr : EmergencyRequest,
      handle_confirmation ⟨[witnessResource], []⟩ 1
        ⟨ResourceType.shelter, "lokoja", 7⟩ "1" 100 25 10 12 255 1 =
        ({ resources := [witnessResource].map fun r =>
             if r.id = witnessResource.id then
               { r with
                  available_capacity := r.available_capacity - 1
                  updated_at := 100 }
             else r
           requests := [] ++ [nr] },
         "END " ++ ("Request confirmed!\r\nReference: " ++
           nr.reference_number ++ "\r\nProvider: " ++ witnessResource.name ++
           "\r\nContact: " ++ witnessResource.contact_phone.getD "None" ++
           "\r\nYou will receive SMS confirmation shortly.")) ∧
      nr.status = RequestStatus.matched ∧
      nr.matched_at = some 100 ∧
      nr.total_cost = witnessResource.price_per_unit ∧
      nr.user_id = 1 ∧
      refPattern nr.reference_number :=
  claim_C1 ⟨[witnessResource], []⟩ 1 ⟨ResourceType.shelter, "lokoja", 7⟩
    100 25 10 12 255 1 witnessResource (by decide) rfl (by decide) rfl

/-- A food resource with a single available unit. -/
def c3_resource : Resource :=
  { id := 1
    name := "Food Bank"
    resource_type := ResourceType.food
    location := "lokoja"
    latitude := none
    longitude := none
    total_capacity := 10
    available_capacity := 1
    price_per_unit := 0
    is_active := true
    contact_phone := none
    updated_at := 0 }

/-- A ten-minute-old pending request asking for two units. -/
def c3_request : EmergencyRequest :=
  { id := 4
    reference_number := "ER000000AAAAAA"
    user_id := 2
    resource_id := none
    resource_type := ResourceType.food
    location := "lokoja"
    latitude := none
    longitude := none
    quantity_needed := 2
    status := RequestStatus.pending
    created_at := 0
    matched_at := none
    priority_level := 1
    total_cost := 0 }

theorem c3_eval_find :
    find_nearby_resources [c3_resource] ResourceType.food "lokoja" 50
      none none = [⟨c3_resource, none⟩] := by
  unfold find_nearby_resources
  dsimp only
  rw [if_neg (by simp [truthy])]
  simp +decide [List.filter, List.mergeSort, ilike_contains, c3_resource]

theorem c3_eval_match :
    match_request_to_resource (fun _ => 0) [c3_resource] c3_request =
      some ⟨c3_resource, none⟩ := by
  unfold match_request_to_resource
  dsimp only [c3_request]
  rw [c3_eval_find]
  simp [apply_matching_algorithm, List.mergeSort]

/-- Claim C3, failing input: the batch auto-matcher selects the pending
request (summary `processed = matched + failed = 1 + 0`), marks it
`matched`, but because `update_capacity`'s boolean result is discarded the
resource's available capacity stays at 1 instead of decreasing by the
request's quantity 2. -/
theorem claim_C3_bug :
    (auto_match_pending_requests (fun _ => 0) 10
      ⟨[c3_resource], [c3_request]⟩).2 =
      { total_processed := 1, matched := 1, failed := 0 } ∧
    ((auto_match_pending_requests (fun _ => 0) 10
      ⟨[c3_resource], [c3_request]⟩).1.requests.map
        EmergencyRequest.status) = [RequestStatus.matched] ∧
    ((auto_match_pending_requests (fun _ => 0) 10
      ⟨[c3_resource], [c3_request]⟩).1.resources.map
        Resource.available_capacity) = [1] ∧
    c3_request.quantity_needed = 2 := by
  unfold auto_match_pending_requests
  dsimp only
  rw [show ([c3_request].filter fun q =>
      decide (q.status = RequestStatus.pending ∧ q.created_at ≤ 10 - 5)) =
      [c3_request] by simp +decide [List.filter]]
  rw [show [c3_request].mergeSort pendingOrder = [c3_request] by
    simp [List.mergeSort]]
  rw [List.foldl_cons, List.foldl_nil]
  rw [c3_eval_match]
  refine ⟨rfl, ?_, ?_, by decide⟩
  · simp +decide [c3_request]
  · simp +decide [c3_resource, c3_request, Resource.update_capacity]

end Arkshift
